import Mathlib

/-!
Verification of the contact-form flow of `src/pages/Contact.tsx` and the
scroll-restoration component `src/components/layout/ScrollToTop.tsx`.

The React component is embedded as pure functions: the form state is a
structure, `handleSubmit` is a function of the pre-state and the outcome of
the single `fetch`, returning the post-state together with the ordered trace
of its effects (state setters, the HTTP request, toasts).  JavaScript string
trimming and the zod string checks are modelled over `List Char` data of
Lean strings.
-/

namespace Web1

/-- The fixed external URL the form posts to (`WORKER_ENDPOINT`). -/
def WORKER_ENDPOINT : String := "https://contact-form.digbadara-finance.workers.dev"

/-- The `formData` state object of the `Contact` component: seven string
fields, `_gotcha` being the hidden honeypot input. -/
structure FormData where
  name : String
  email : String
  eventDate : String
  eventType : String
  location : String
  message : String
  _gotcha : String
deriving DecidableEq, Repr

/-- Models JS `String.prototype.trim` (and hence zod `.trim()`): whitespace
dropped from both ends. -/
def jsTrim (s : String) : String :=
  String.mk (((s.data.dropWhile Char.isWhitespace).reverse.dropWhile
    Char.isWhitespace).reverse)

/-- Characters the zod email regex allows anywhere in the local part. -/
def emailLocalChar (c : Char) : Bool :=
  c.isAlphanum || c = Char.ofNat 39 || c = '_' || c = '+' || c = '-' || c = '.'

/-- Characters the zod email regex allows as the last local-part character. -/
def emailLocalEndChar (c : Char) : Bool :=
  c.isAlphanum || c = '_' || c = '+' || c = '-'

/-- No two consecutive dots. -/
def noDoubleDot : List Char → Bool
  | [] => true
  | [_] => true
  | a :: b :: rest => !(a = '.' && b = '.') && noDoubleDot (b :: rest)

/-- The local part of an address per the zod email regex: nonempty, not
starting with a dot, no `..`, allowed characters only, ending in a
non-dot character. -/
def validLocal : List Char → Bool
  | [] => false
  | c :: rest =>
    !(c = '.') && noDoubleDot (c :: rest) && (c :: rest).all emailLocalChar &&
      (match (c :: rest).getLast? with
       | some l => emailLocalEndChar l
       | none => false)

/-- A domain label per the zod email regex: alphanumeric first character,
then alphanumerics and hyphens. -/
def validLabel : List Char → Bool
  | [] => false
  | c :: rest => c.isAlphanum && rest.all (fun d => d.isAlphanum || d = '-')

/-- A top-level domain per the zod email regex: letters only, length at
least two. -/
def validTld (cs : List Char) : Bool :=
  2 ≤ cs.length && cs.all Char.isAlpha

/-- Split a character list at every dot. -/
def splitOnDot : List Char → List (List Char)
  | [] => [[]]
  | c :: rest =>
    let r := splitOnDot rest
    if c = '.' then [] :: r
    else
      match r with
      | [] => [[c]]
      | h :: t => (c :: h) :: t

/-- The domain per the zod email regex: one or more labels, a final TLD. -/
def validDomain (cs : List Char) : Bool :=
  let parts := splitOnDot cs
  2 ≤ parts.length && parts.dropLast.all validLabel &&
    (match parts.getLast? with
     | some t => validTld t
     | none => false)

/-- Models zod `.email()`: exactly one `@`, a valid local part before it and
a valid domain after it. -/
def isEmail (s : String) : Bool :=
  let cs := s.data
  (cs.filter (fun c => c = '@')).length = 1 &&
    validLocal (cs.takeWhile (fun c => !(c = '@'))) &&
    validDomain ((cs.dropWhile (fun c => !(c = '@'))).drop 1)

/-- `name: z.string().trim().min(1).max(100)`. -/
def nameValid (fd : FormData) : Bool :=
  1 ≤ (jsTrim fd.name).data.length && (jsTrim fd.name).data.length ≤ 100

/-- `email: z.string().trim().email().max(255)`. -/
def emailValid (fd : FormData) : Bool :=
  isEmail (jsTrim fd.email) && (jsTrim fd.email).data.length ≤ 255

/-- `location: z.string().trim().max(200).optional()` (the form always holds
a string, so only the max check matters). -/
def locationValid (fd : FormData) : Bool :=
  (jsTrim fd.location).data.length ≤ 200

/-- `message: z.string().trim().min(1).max(2000)`. -/
def messageValid (fd : FormData) : Bool :=
  1 ≤ (jsTrim fd.message).data.length && (jsTrim fd.message).data.length ≤ 2000

/-- Whether `contactSchema.parse(formData)` succeeds: `eventDate`,
`eventType` and `_gotcha` are optional plain strings and always pass. -/
def formValid (fd : FormData) : Bool :=
  nameValid fd && emailValid fd && locationValid fd && messageValid fd

/-- The zod issue message kept for `name` by the `forEach` in
`validateForm` (the later issue overwrites the earlier). -/
def nameErrorMsg (fd : FormData) : String :=
  if (jsTrim fd.name).data.length < 1 then
    "String must contain at least 1 character(s)"
  else "String must contain at most 100 character(s)"

/-- The zod issue message kept for `email` (checks run in order `.email()`
then `.max(255)`, the later overwrites). -/
def emailErrorMsg (fd : FormData) : String :=
  if 255 < (jsTrim fd.email).data.length then
    "String must contain at most 255 character(s)"
  else "Invalid email"

/-- The zod issue message kept for `location`. -/
def locationErrorMsg (_fd : FormData) : String :=
  "String must contain at most 200 character(s)"

/-- The zod issue message kept for `message`. -/
def messageErrorMsg (fd : FormData) : String :=
  if (jsTrim fd.message).data.length < 1 then
    "String must contain at least 1 character(s)"
  else "String must contain at most 2000 character(s)"

/-- The `newErrors` map built in `validateForm` from the `ZodError`: one
entry per failing field, keyed by `err.path[0]`. -/
def fieldErrors (fd : FormData) : List (String × String) :=
  (if nameValid fd then [] else [("name", nameErrorMsg fd)]) ++
  (if emailValid fd then [] else [("email", emailErrorMsg fd)]) ++
  (if locationValid fd then [] else [("location", locationErrorMsg fd)]) ++
  (if messageValid fd then [] else [("message", messageErrorMsg fd)])

/-- `validateForm`: whether the parse succeeded, and the errors written to
state (`{}` on success, `newErrors` on failure). -/
def validateForm (fd : FormData) : Bool × List (String × String) :=
  if formValid fd then (true, []) else (false, fieldErrors fd)

/-- The object passed to `JSON.stringify` in `handleSubmit`; `none` models
`undefined`, whose key `JSON.stringify` omits from the body. -/
structure Payload where
  name : String
  email : String
  eventDate : Option String
  eventType : Option String
  location : Option String
  message : String
  _gotcha : String
deriving DecidableEq, Repr

/-- The request body built in `handleSubmit`: `name`, `email`, `message`
trimmed; `eventDate` and `eventType` replaced by `undefined` when the form
value is falsy (the empty string); `location` trimmed and replaced by
`undefined` when the trimmed value is empty; `_gotcha` sent verbatim. -/
def mkPayload (fd : FormData) : Payload :=
  { name := jsTrim fd.name
    email := jsTrim fd.email
    eventDate := if fd.eventDate = "" then none else some fd.eventDate
    eventType := if fd.eventType = "" then none else some fd.eventType
    location := if jsTrim fd.location = "" then none else some (jsTrim fd.location)
    message := jsTrim fd.message
    _gotcha := fd._gotcha }

/-- The component state touched by the submission flow. -/
structure ContactState where
  formData : FormData
  isSubmitting : Bool
  errors : List (String × String)
  submitError : Option String
deriving DecidableEq, Repr

/-- The outcome of the single `fetch`: the promise resolves with a response
of some status, or rejects with an error carrying a message. -/
inductive FetchOutcome where
  | ok (status : Nat)
  | networkError (msg : String)
deriving DecidableEq, Repr

/-- `response.ok`: the status lies in 200..299.  A rejected fetch is never a
success. -/
def FetchOutcome.isSuccess : FetchOutcome → Bool
  | .ok status => 200 ≤ status && status ≤ 299
  | .networkError _ => false

/-- The message the `catch` block extracts: `Request failed (status)` for a
non-ok response (thrown on line 92), the error's own message for a network
failure. -/
def failureMessage : FetchOutcome → String
  | .ok status => "Request failed (" ++ toString status ++ ")"
  | .networkError m => m

/-- One observable effect of `handleSubmit`, in program order. -/
inductive Event where
  | setSubmitError (v : Option String)
  | setErrors (e : List (String × String))
  | setIsSubmitting (b : Bool)
  | request (url : String) (body : Payload)
  | toast (title : String) (description : String) (destructive : Bool)
  | setFormData (fd : FormData)
deriving DecidableEq, Repr

/-- The all-empty form: the initial `useState` value, also what the form is
reset to after a successful submission. -/
def emptyForm : FormData :=
  { name := "", email := "", eventDate := "", eventType := "", location := ""
    message := "", _gotcha := "" }

/-- The component's initial state. -/
def initState : ContactState :=
  { formData := emptyForm, isSubmitting := false, errors := [], submitError := none }

/-- `handleSubmit`, as a function of the pre-state and the fetch outcome:
clear `submitError`, validate (recording errors and returning early on
failure), set the loading flag, send the one POST, then either toast the
confirmation and reset the form, or record the failure message and toast
destructively; `finally` clears the loading flag. -/
def handleSubmit (s : ContactState) (o : FetchOutcome) : ContactState × List Event :=
  let v := validateForm s.formData
  if v.1 = false then
    ({ s with submitError := none, errors := v.2 },
     [Event.setSubmitError none, Event.setErrors v.2])
  else
    let body := mkPayload s.formData
    if o.isSuccess then
      ({ s with submitError := none, errors := v.2, formData := emptyForm
                isSubmitting := false },
       [Event.setSubmitError none, Event.setErrors v.2,
        Event.setIsSubmitting true, Event.request WORKER_ENDPOINT body,
        Event.toast "Request Received"
          "Thank you for your inquiry. We'll be in touch within 24 hours." false,
        Event.setFormData emptyForm, Event.setIsSubmitting false])
    else
      let m := failureMessage o
      ({ s with submitError := some m, errors := v.2, isSubmitting := false },
       [Event.setSubmitError none, Event.setErrors v.2,
        Event.setIsSubmitting true, Event.request WORKER_ENDPOINT body,
        Event.setSubmitError (some m),
        Event.toast "Submission Failed" m true, Event.setIsSubmitting false])

/-- The POST requests among a trace of effects. -/
def requestsOf : List Event → List (String × Payload)
  | [] => []
  | Event.request u b :: rest => (u, b) :: requestsOf rest
  | _ :: rest => requestsOf rest

/-- `handleChange`: a change event on the controlled input named `field`
writes its value into the matching form field (the rendered inputs are named
after the form fields). -/
def handleChange (fd : FormData) (field value : String) : FormData :=
  if field = "name" then { fd with name := value }
  else if field = "email" then { fd with email := value }
  else if field = "eventDate" then { fd with eventDate := value }
  else if field = "eventType" then { fd with eventType := value }
  else if field = "location" then { fd with location := value }
  else if field = "message" then { fd with message := value }
  else if field = "_gotcha" then { fd with _gotcha := value }
  else fd

/-- The submit button's `disabled` attribute. -/
def buttonDisabled (s : ContactState) : Bool := s.isSubmitting

/-- The submit button's label. -/
def buttonLabel (s : ContactState) : String :=
  if s.isSubmitting then "Sending..." else "Request Availability"

/-- The submit-error banner above the form: rendered with the message
exactly when `submitError` is non-null. -/
def submitBanner (s : ContactState) : Option String := s.submitError

/-- The states the component can be in between event-handler runs: the
initial state, and the results of change events and completed submissions. -/
inductive Reachable : ContactState → Prop
  | init : Reachable initState
  | change {s : ContactState} (f v : String) :
      Reachable s → Reachable { s with formData := handleChange s.formData f v }
  | submit {s : ContactState} (o : FetchOutcome) :
      Reachable s → Reachable (handleSubmit s o).1

/-- `useLocation()` data the `ScrollToTop` effect depends on. -/
structure RouteLocation where
  pathname : String
  hash : String
deriving DecidableEq, Repr

/-- The argument of `window.scrollTo`. -/
structure ScrollCommand where
  top : Nat
  left : Nat
  behavior : String
deriving DecidableEq, Repr

/-- The `ScrollToTop` component's `useEffect` with dependency list
`[pathname, hash]`: the scroll commands issued on a re-render, as a function
of the previous and the current location. -/
def ScrollToTop (prev cur : RouteLocation) : List ScrollCommand :=
  if prev.pathname = cur.pathname ∧ prev.hash = cur.hash then []
  else [{ top := 0, left := 0, behavior := "smooth" }]

/-! ## Helper lemmas -/

/-- On a form that fails validation, `handleSubmit` stops after recording the
field errors. -/
lemma handleSubmit_invalid (s : ContactState) (o : FetchOutcome)
    (hv : formValid s.formData = false) :
    handleSubmit s o =
      ({ s with submitError := none, errors := fieldErrors s.formData },
       [Event.setSubmitError none, Event.setErrors (fieldErrors s.formData)]) := by
  simp [handleSubmit, validateForm, hv]

/-- `validateForm` succeeds exactly on valid forms, clearing the errors. -/
lemma validateForm_valid (fd : FormData) (hv : formValid fd = true) :
    validateForm fd = (true, []) := by
  simp [validateForm, hv]

/-- A string of whitespace characters trims to the empty data. -/
lemma jsTrim_data_eq_nil (s : String) (h : s.data.all Char.isWhitespace = true) :
    (jsTrim s).data = [] := by
  have h1 : s.data.dropWhile Char.isWhitespace = [] := by
    rw [List.dropWhile_eq_nil_iff]
    intro x hx
    exact List.all_eq_true.mp h x hx
  simp [jsTrim, h1]

/-- `handleSubmit` leaves a clear loading flag clear. -/
lemma handleSubmit_isSubmitting (s : ContactState) (o : FetchOutcome)
    (h : s.isSubmitting = false) : (handleSubmit s o).1.isSubmitting = false := by
  cases hv : formValid s.formData <;> cases ho : o.isSuccess <;>
    simp [handleSubmit, validateForm, hv, ho, h]

/-! ## The claims -/

/-- C1: if the form data fails the fixed schema check — name empty after
trimming or longer than 100 characters, email not a valid address or longer
than 255 characters, message empty after trimming or longer than 2000
characters, or location longer than 200 characters after trimming — then
`handleSubmit` makes no network request, records a per-field error message
for each failing field, and leaves the form field values unchanged. -/
theorem contact_C1 (s : ContactState) (o : FetchOutcome)
    (h : (jsTrim s.formData.name).data.length = 0 ∨
         100 < (jsTrim s.formData.name).data.length ∨
         isEmail (jsTrim s.formData.email) = false ∨
         255 < (jsTrim s.formData.email).data.length ∨
         (jsTrim s.formData.message).data.length = 0 ∨
         2000 < (jsTrim s.formData.message).data.length ∨
         200 < (jsTrim s.formData.location).data.length) :
    requestsOf (handleSubmit s o).2 = [] ∧
    (nameValid s.formData = false →
      ("name", nameErrorMsg s.formData) ∈ (handleSubmit s o).1.errors) ∧
    (emailValid s.formData = false →
      ("email", emailErrorMsg s.formData) ∈ (handleSubmit s o).1.errors) ∧
    (locationValid s.formData = false →
      ("location", locationErrorMsg s.formData) ∈ (handleSubmit s o).1.errors) ∧
    (messageValid s.formData = false →
      ("message", messageErrorMsg s.formData) ∈ (handleSubmit s o).1.errors) ∧
    (handleSubmit s o).1.formData = s.formData := by
  have hv : formValid s.formData = false := by
    cases hb : formValid s.formData
    · rfl
    · exfalso
      have hb2 := hb
      simp only [formValid, nameValid, emailValid, locationValid, messageValid,
        Bool.and_eq_true, decide_eq_true_eq] at hb2
      obtain ⟨⟨⟨⟨h1, h2⟩, h3, h4⟩, h5⟩, h6, h7⟩ := hb2
      rcases h with h | h | h | h | h | h | h
      · omega
      · omega
      · rw [h] at h3; exact Bool.false_ne_true h3
      · omega
      · omega
      · omega
      · omega
  rw [handleSubmit_invalid s o hv]
  refine ⟨by simp [requestsOf], ?_, ?_, ?_, ?_, rfl⟩
  · intro hn; simp [fieldErrors, hn]
  · intro he; simp [fieldErrors, he]
  · intro hl; simp [fieldErrors, hl]
  · intro hm; simp [fieldErrors, hm]

/-- A form whose name is empty: validation fails on the name field. -/
def c1Form : FormData :=
  { name := "", email := "john@example.com", eventDate := "", eventType := ""
    location := "", message := "Hello", _gotcha := "" }

/-- A state holding `c1Form`. -/
def c1State : ContactState :=
  { formData := c1Form, isSubmitting := false, errors := [], submitError := none }

/-- C1 witness: the empty-name form fails the schema and produces no
request. -/
theorem contact_C1_witness :
    (jsTrim c1State.formData.name).data.length = 0 ∧
    requestsOf (handleSubmit c1State (FetchOutcome.ok 200)).2 = [] :=
  ⟨by decide, (contact_C1 c1State (FetchOutcome.ok 200) (Or.inl (by decide))).1⟩

/-- The request body as claim C2 describes it: name, email and message
trimmed, location trimmed, and eventDate, eventType and location omitted
exactly when their form value is the empty string. -/
def specPayloadC2 (fd : FormData) : Payload :=
  { name := jsTrim fd.name
    email := jsTrim fd.email
    eventDate := if fd.eventDate = "" then none else some fd.eventDate
    eventType := if fd.eventType = "" then none else some fd.eventType
    location := if fd.location = "" then none else some (jsTrim fd.location)
    message := jsTrim fd.message
    _gotcha := fd._gotcha }

/-- A valid form whose location is a single space. -/
def c2Form : FormData :=
  { name := "John Smith", email := "john@example.com", eventDate := ""
    eventType := "", location := " ", message := "Hello", _gotcha := "" }

/-- A state holding `c2Form`. -/
def c2State : ContactState :=
  { formData := c2Form, isSubmitting := false, errors := [], submitError := none }

/-- C2 counterexample: on a valid form whose location is a single space,
the one POST body omits `location` (the code drops it when the trimmed
value is falsy), while the body the claim describes keeps `location` as the
empty string — the claim's account of the payload is wrong there. -/
theorem contact_C2_counterexample :
    requestsOf (handleSubmit c2State (FetchOutcome.ok 200)).2
        = [(WORKER_ENDPOINT, mkPayload c2Form)] ∧
    (mkPayload c2Form).location = none ∧
    (specPayloadC2 c2Form).location = some "" ∧
    requestsOf (handleSubmit c2State (FetchOutcome.ok 200)).2
        ≠ [(WORKER_ENDPOINT, specPayloadC2 c2Form)] := by
  refine ⟨by decide, by decide, by decide, by decide⟩

/-- C2 amended: when validation succeeds, `handleSubmit` sends exactly one
POST to the fixed worker URL whose body carries name, email and message
trimmed, eventDate and eventType omitted when their form value is the empty
string, and location trimmed and omitted when its trimmed value is the
empty string, with `_gotcha` passed through. -/
theorem contact_C2_amended (s : ContactState) (o : FetchOutcome)
    (h : formValid s.formData = true) :
    requestsOf (handleSubmit s o).2 =
      [(WORKER_ENDPOINT,
        { name := jsTrim s.formData.name
          email := jsTrim s.formData.email
          eventDate := if s.formData.eventDate = "" then none
                       else some s.formData.eventDate
          eventType := if s.formData.eventType = "" then none
                       else some s.formData.eventType
          location := if jsTrim s.formData.location = "" then none
                      else some (jsTrim s.formData.location)
          message := jsTrim s.formData.message
          _gotcha := s.formData._gotcha })] := by
  cases ho : o.isSuccess <;>
    simp [handleSubmit, validateForm_valid _ h, ho, requestsOf, mkPayload]

/-- C2 witness: the amended statement evaluated on a concrete valid form. -/
theorem contact_C2_amended_witness :
    formValid c2Form = true ∧
    requestsOf (handleSubmit c2State (FetchOutcome.ok 200)).2 =
      [(WORKER_ENDPOINT,
        { name := jsTrim c2State.formData.name
          email := jsTrim c2State.formData.email
          eventDate := if c2State.formData.eventDate = "" then none
                       else some c2State.formData.eventDate
          eventType := if c2State.formData.eventType = "" then none
                       else some c2State.formData.eventType
          location := if jsTrim c2State.formData.location = "" then none
                      else some (jsTrim c2State.formData.location)
          message := jsTrim c2State.formData.message
          _gotcha := c2State.formData._gotcha })] :=
  ⟨by decide, contact_C2_amended c2State (FetchOutcome.ok 200) (by decide)⟩

/-- C3: when the POST completes with a non-success status or the request
fails with a network error, `handleSubmit` records a non-null user-facing
message in `submitError` (shown by the banner), shows a destructive toast,
and does not reset the form fields. -/
theorem contact_C3 (s : ContactState) (o : FetchOutcome)
    (hv : formValid s.formData = true) (hf : o.isSuccess = false) :
    (handleSubmit s o).1.submitError = some (failureMessage o) ∧
    submitBanner (handleSubmit s o).1 = some (failureMessage o) ∧
    Event.toast "Submission Failed" (failureMessage o) true ∈ (handleSubmit s o).2 ∧
    (handleSubmit s o).1.formData = s.formData := by
  simp [handleSubmit, validateForm_valid _ hv, hf, submitBanner]

/-- A valid form used to exercise the submission paths. -/
def validForm : FormData :=
  { name := "John Smith", email := "john@example.com", eventDate := "2026-01-01"
    eventType := "Wedding", location := "Lagos", message := "Hello", _gotcha := "" }

/-- A state holding `validForm`. -/
def validState : ContactState :=
  { formData := validForm, isSubmitting := false, errors := [], submitError := none }

/-- C3 witness: a 500 response on a valid form records the failure message
and leaves the form intact. -/
theorem contact_C3_witness :
    formValid validForm = true ∧ (FetchOutcome.ok 500).isSuccess = false ∧
    (handleSubmit validState (FetchOutcome.ok 500)).1.submitError
      = some (failureMessage (FetchOutcome.ok 500)) ∧
    (handleSubmit validState (FetchOutcome.ok 500)).1.formData = validState.formData :=
  ⟨by decide, by decide,
   (contact_C3 validState (FetchOutcome.ok 500) (by decide) (by decide)).1,
   (contact_C3 validState (FetchOutcome.ok 500) (by decide) (by decide)).2.2.2⟩

/-- C4: when the POST completes with a success status (200..299),
`handleSubmit` shows the confirmation toast and resets every form field —
name, email, eventDate, eventType, location, message and `_gotcha` — to the
empty string. -/
theorem contact_C4 (s : ContactState) (status : Nat)
    (h2 : 200 ≤ status) (h3 : status ≤ 299)
    (hv : formValid s.formData = true) :
    Event.toast "Request Received"
        "Thank you for your inquiry. We'll be in touch within 24 hours." false
      ∈ (handleSubmit s (FetchOutcome.ok status)).2 ∧
    (handleSubmit s (FetchOutcome.ok status)).1.formData =
      { name := "", email := "", eventDate := "", eventType := "", location := ""
        message := "", _gotcha := "" } := by
  have hs : (FetchOutcome.ok status).isSuccess = true := by
    simp only [FetchOutcome.isSuccess, Bool.and_eq_true, decide_eq_true_eq]
    omega
  simp [handleSubmit, validateForm_valid _ hv, hs, emptyForm]

/-- C4 witness: a 200 response on a valid form resets the form. -/
theorem contact_C4_witness :
    formValid validForm = true ∧
    (handleSubmit validState (FetchOutcome.ok 200)).1.formData =
      { name := "", email := "", eventDate := "", eventType := "", location := ""
        message := "", _gotcha := "" } :=
  ⟨by decide,
   (contact_C4 validState 200 (by decide) (by decide) (by decide)).2⟩

/-- A valid form whose hidden honeypot field was filled, as a bot would. -/
def c5Form : FormData :=
  { name := "John Smith", email := "john@example.com", eventDate := ""
    eventType := "", location := "", message := "Hello", _gotcha := "I am a bot" }

/-- A state holding `c5Form`. -/
def c5State : ContactState :=
  { formData := c5Form, isSubmitting := false, errors := [], submitError := none }

/-- C5 counterexample: a submission whose hidden `_gotcha` input was filled
still passes validation and reaches the POST, and the payload carries that
non-empty value verbatim — the honeypot value sent is not always the empty
string (the code forwards `formData._gotcha` as is; only the remote
endpoint is expected to reject it). -/
theorem contact_C5_counterexample :
    requestsOf (handleSubmit c5State (FetchOutcome.ok 200)).2
        = [(WORKER_ENDPOINT, mkPayload c5Form)] ∧
    (mkPayload c5Form)._gotcha = "I am a bot" := by
  refine ⟨by decide, by decide⟩

/-- C5 amended: every submission that reaches the POST sends the `_gotcha`
key, with value equal to the form state's `_gotcha` field; that field is
the empty string in the initial state and is preserved by every change
event that targets another input, so it is empty unless the hidden field
itself was filled. -/
theorem contact_C5_amended (s : ContactState) (o : FetchOutcome)
    (h : formValid s.formData = true) :
    (requestsOf (handleSubmit s o).2).map (fun r => r.2._gotcha)
        = [s.formData._gotcha] ∧
    initState.formData._gotcha = "" ∧
    (∀ f v, f ≠ "_gotcha" →
      (handleChange s.formData f v)._gotcha = s.formData._gotcha) := by
  refine ⟨?_, rfl, ?_⟩
  · cases ho : o.isSuccess <;>
      simp [handleSubmit, validateForm_valid _ h, ho, requestsOf, mkPayload]
  · intro f v hf
    unfold handleChange
    split_ifs <;> simp_all

/-- C5 witness: the amended statement evaluated on the filled-honeypot
form. -/
theorem contact_C5_amended_witness :
    formValid c5Form = true ∧
    ((requestsOf (handleSubmit c5State (FetchOutcome.ok 200)).2).map
        (fun r => r.2._gotcha) = [c5State.formData._gotcha] ∧
      initState.formData._gotcha = "" ∧
      (∀ f v, f ≠ "_gotcha" →
        (handleChange c5State.formData f v)._gotcha = c5State.formData._gotcha)) :=
  ⟨by decide, contact_C5_amended c5State (FetchOutcome.ok 200) (by decide)⟩

/-- C6: one invocation of `handleSubmit` issues at most one HTTP request —
in particular there is no retry on failure: the trace of an invocation
never holds a second request. -/
theorem contact_C6 (s : ContactState) (o : FetchOutcome) :
    (requestsOf (handleSubmit s o).2).length ≤ 1 := by
  cases hv : formValid s.formData <;> cases ho : o.isSuccess <;>
    simp [handleSubmit, validateForm, hv, ho, requestsOf]

/-- The loading flag never survives an event-handler run: every reachable
resting state has it clear. -/
lemma reachable_not_submitting {s : ContactState} (h : Reachable s) :
    s.isSubmitting = false := by
  induction h with
  | init => rfl
  | change f v _ ih => exact ih
  | submit o _ ih => exact handleSubmit_isSubmitting _ o ih

/-- C7: `isSubmitting` is turned on only after validation succeeds, and
after `handleSubmit` completes — on the success path and on the error path
alike — the flag is clear, so the submit button is enabled again and shows
"Request Availability" rather than "Sending...". -/
theorem contact_C7 (s : ContactState) (o : FetchOutcome) (hr : Reachable s) :
    (Event.setIsSubmitting true ∈ (handleSubmit s o).2 →
      formValid s.formData = true) ∧
    (handleSubmit s o).1.isSubmitting = false ∧
    buttonDisabled (handleSubmit s o).1 = false ∧
    buttonLabel (handleSubmit s o).1 = "Request Availability" := by
  have h0 : s.isSubmitting = false := reachable_not_submitting hr
  have h1 : (handleSubmit s o).1.isSubmitting = false :=
    handleSubmit_isSubmitting s o h0
  refine ⟨?_, h1, ?_, ?_⟩
  · intro hm
    cases hv : formValid s.formData
    · rw [handleSubmit_invalid s o hv] at hm
      simp at hm
    · rfl
  · simp [buttonDisabled, h1]
  · simp [buttonLabel, h1]

/-- C7 witness: after a failed submission attempt from the initial state
the button is enabled and shows its resting label. -/
theorem contact_C7_witness :
    (handleSubmit initState (FetchOutcome.ok 500)).1.isSubmitting = false ∧
    buttonLabel (handleSubmit initState (FetchOutcome.ok 500)).1
      = "Request Availability" :=
  ⟨(contact_C7 initState (FetchOutcome.ok 500) Reachable.init).2.1,
   (contact_C7 initState (FetchOutcome.ok 500) Reachable.init).2.2.2⟩

/-- C8: on every navigation that changes the pathname or the hash, the
`ScrollToTop` effect scrolls the window to top 0, left 0. -/
theorem scrollToTop_C8 (prev cur : RouteLocation)
    (h : prev.pathname ≠ cur.pathname ∨ prev.hash ≠ cur.hash) :
    ScrollToTop prev cur = [{ top := 0, left := 0, behavior := "smooth" }] := by
  unfold ScrollToTop
  rw [if_neg]
  rcases h with h | h <;> exact fun hc => h (by simp [hc.1, hc.2])

/-- C8 witness: navigating from the home route to the about route issues
the scroll command. -/
theorem scrollToTop_C8_witness :
    ({ pathname := "/", hash := "" } : RouteLocation).pathname
      ≠ ({ pathname := "/about", hash := "" } : RouteLocation).pathname ∧
    ScrollToTop { pathname := "/", hash := "" } { pathname := "/about", hash := "" }
      = [{ top := 0, left := 0, behavior := "smooth" }] :=
  ⟨by decide,
   scrollToTop_C8 { pathname := "/", hash := "" } { pathname := "/about", hash := "" }
     (Or.inl (by decide))⟩

/-- C9: a name or message consisting only of whitespace fails validation —
the schema trims before its minimum-length check — so such a submission
never produces a network request. -/
theorem contact_C9 (s : ContactState) (o : FetchOutcome)
    (h : s.formData.name.data.all Char.isWhitespace = true ∨
         s.formData.message.data.all Char.isWhitespace = true) :
    formValid s.formData = false ∧ requestsOf (handleSubmit s o).2 = [] := by
  have hv : formValid s.formData = false := by
    rcases h with h | h
    · have hn : nameValid s.formData = false := by
        simp [nameValid, jsTrim_data_eq_nil _ h]
      simp [formValid, hn]
    · have hm : messageValid s.formData = false := by
        simp [messageValid, jsTrim_data_eq_nil _ h]
      simp [formValid, hm]
  rw [handleSubmit_invalid s o hv]
  exact ⟨hv, by simp [requestsOf]⟩

/-- A form whose name is three spaces and message a tab: both all
whitespace. -/
def c9Form : FormData :=
  { name := "   ", email := "john@example.com", eventDate := "", eventType := ""
    location := "", message := "\t", _gotcha := "" }

/-- A state holding `c9Form`. -/
def c9State : ContactState :=
  { formData := c9Form, isSubmitting := false, errors := [], submitError := none }

/-- C9 witness: the whitespace-only form fails validation and produces no
request. -/
theorem contact_C9_witness :
    c9Form.name.data.all Char.isWhitespace = true ∧
    (formValid c9Form = false ∧
      requestsOf (handleSubmit c9State (FetchOutcome.ok 200)).2 = []) :=
  ⟨by decide, contact_C9 c9State (FetchOutcome.ok 200) (Or.inl (by decide))⟩

/-- C10: every run of `handleSubmit` first clears `submitError`, a
validation failure leaves it clear, and whenever the banner shows a message
it is the failure message of the most recent attempt's HTTP or network
error — never a schema validation error. -/
theorem contact_C10 (s : ContactState) (o : FetchOutcome) :
    (handleSubmit s o).2.head? = some (Event.setSubmitError none) ∧
    (formValid s.formData = false → submitBanner (handleSubmit s o).1 = none) ∧
    (∀ m, submitBanner (handleSubmit s o).1 = some m →
      formValid s.formData = true ∧ o.isSuccess = false ∧ m = failureMessage o) := by
  cases hv : formValid s.formData <;> cases ho : o.isSuccess <;>
    simp [handleSubmit, validateForm, hv, ho, submitBanner]

end Web1
